import Mathlib

/-!
Verification of the dynamis contact-form intake pipeline.

This file embeds, as executable Lean definitions, the submission intake flow
of the repository: the raw request body, the normalization performed by
`MessageController.#normalizeMessageData` (src/server/src/controllers/message.controller.js),
the Joi contact-form schema (src/server/src/validators/contact.validator.js),
the express-validator route schema (src/server/src/routes/message.routes.js),
the duplicate-submission guard (src/server/src/middleware/duplicateCheck.middleware.js),
the rate limiters (src/unnamed/part_009), the persistence-plus-notification
service (src/server/src/services/message.service.js) and the notification-primary
form controller (src/src/server/controllers/form.controller.js).

String operations are implemented by structural recursion over the character
list of a `String`, so every definition evaluates inside the kernel.
-/

namespace Dynamis

/-! ## JavaScript string primitives

These model the JS string operations used by the source: `trim`,
`toLowerCase`, `split` on whitespace runs, and array join with a space.
-/

/-- Whitespace test used by the JS `\s` character class and `trim`. -/
def isWsChar (c : Char) : Bool := c.isWhitespace

/-- Remove leading whitespace from a character list. -/
def dropWsLeft (l : List Char) : List Char := l.dropWhile isWsChar

/-- Model of JS `String.prototype.trim`: strip whitespace from both ends. -/
def jsTrim (s : String) : String :=
  ⟨dropWsLeft ((dropWsLeft s.data.reverse).reverse)⟩

/-- Model of JS `String.prototype.toLowerCase` (ASCII range). -/
def jsToLower (s : String) : String := ⟨s.data.map Char.toLower⟩

/-- Helper for `splitWs`: accumulate the current token (reversed) while
scanning the character list. -/
def splitWsAux : List Char → List Char → List String
  | [], acc => if acc.isEmpty then [] else [⟨acc.reverse⟩]
  | c :: cs, acc =>
    if isWsChar c then
      if acc.isEmpty then splitWsAux cs [] else ⟨acc.reverse⟩ :: splitWsAux cs []
    else
      splitWsAux cs (c :: acc)

/-- Model of JS `str.split(/\s+/)` on an already-trimmed string: the list of
maximal non-whitespace runs. -/
def splitWs (s : String) : List String := splitWsAux s.data []

/-- Model of JS `arr.join(' ')`. -/
def joinSpace : List String → String
  | [] => ""
  | [s] => s
  | s :: rest => s ++ " " ++ joinSpace rest

/-- Helper for `sanitizeHtml`: drop every character between an opening and a
closing angle bracket. -/
def stripTagsAux : List Char → Bool → List Char
  | [], _ => []
  | c :: cs, true => if c = '>' then stripTagsAux cs false else stripTagsAux cs true
  | c :: cs, false => if c = '<' then stripTagsAux cs true else c :: stripTagsAux cs false

/-- Model of the external sanitize-html library as invoked by the controller
with allowedTags and allowedAttributes both empty: markup between angle
brackets is removed, plain text passes through unchanged. -/
def sanitizeHtml (s : String) : String := ⟨stripTagsAux s.data false⟩

/-! ## Raw request body and normalization -/

/-- The raw JSON body of a `POST /api/messages` request. Absent fields are
`none`; JS `undefined`. The boolean-ish consent fields arrive from browsers
as strings, which is the case `#normalizeMessageData`'s `toBool` is written
for. -/
structure RawBody where
  name : Option String := none
  firstName : Option String := none
  lastName : Option String := none
  email : Option String := none
  subject : Option String := none
  message : Option String := none
  content : Option String := none
  phone : Option String := none
  website : Option String := none
  honeypot : Option String := none
  privacyPolicyAccepted : Option String := none
  marketingConsent : Option String := none
deriving DecidableEq, Repr

/-- JS truthiness of an optional string: present and non-empty. -/
def truthy : Option String → Bool
  | none => false
  | some s => s ≠ ""

/-- JS `a || b` on optional strings: the first truthy value, else empty. -/
def jsOr (a b : Option String) : String :=
  if truthy a then a.getD "" else if truthy b then b.getD "" else ""

/-- The `toBool` coercion of `#normalizeMessageData` on its string branch:
trimmed, lowercased value must be one of on, true, 1, yes. An absent field
is `false`. -/
def toBool : Option String → Bool
  | none => false
  | some v =>
    let s := jsToLower (jsTrim v)
    s == "on" || s == "true" || s == "1" || s == "yes"

/-- A normalized submission as produced by `#normalizeMessageData`: every
field a plain (sanitized, trimmed) string, consents coerced to booleans. -/
structure NormalizedData where
  firstName : String
  lastName : String
  email : String
  subject : String
  message : String
  phone : String
  privacyPolicyAccepted : Bool
  marketingConsent : Bool
deriving DecidableEq, Repr

/-- Embedding of `MessageController.#normalizeMessageData`
(src/server/src/controllers/message.controller.js lines 14-71): split a
combined `name` into first and remainder when the separate fields are
absent or empty, trim and sanitize every string, lowercase the email,
fall back from `message` to `content`, and coerce the consent fields. -/
def normalizeMessageData (b : RawBody) : NormalizedData :=
  let rawFirst := b.firstName.getD ""
  let rawLast := b.lastName.getD ""
  let fromName :=
    if truthy b.name && rawFirst == "" && rawLast == "" then
      let parts := splitWs (jsTrim (b.name.getD ""))
      (parts.headD "", if parts.length > 1 then joinSpace parts.tail else "")
    else
      (rawFirst, rawLast)
  { firstName := sanitizeHtml (jsTrim fromName.1)
    lastName := sanitizeHtml (jsTrim fromName.2)
    email := sanitizeHtml (jsTrim (jsToLower (b.email.getD "")))
    subject := sanitizeHtml (jsTrim (b.subject.getD ""))
    message := sanitizeHtml (jsTrim (jsOr b.message b.content))
    phone := if truthy b.phone then sanitizeHtml (jsTrim (b.phone.getD "")) else ""
    privacyPolicyAccepted := toBool b.privacyPolicyAccepted
    marketingConsent := toBool b.marketingConsent }

/-! ## The Joi contact-form schema -/

/-- Character list split on a separator, keeping empty segments, as JS
`str.split(sep)` does. -/
def splitOnChar (sep : Char) : List Char → List (List Char)
  | [] => [[]]
  | c :: cs =>
    let r := splitOnChar sep cs
    if c = sep then [] :: r
    else
      match r with
      | [] => [[c]]
      | g :: gs => (c :: g) :: gs

/-- Model of Joi's email rule with minDomainSegments 2 and TLD checking
disabled, as configured in contact.validator.js: exactly one at-sign, a
non-empty local part, no whitespace, and a domain of at least two non-empty
dot-separated segments. -/
def joiEmailValid (s : String) : Bool :=
  match splitOnChar '@' s.data with
  | [lp, dom] =>
    !lp.isEmpty && !(s.data.any isWsChar) &&
      (let segs := splitOnChar '.' dom
       segs.length ≥ 2 && segs.all (fun g => !g.isEmpty))
  | _ => false

/-- Model of validator.js `isEmail` as used by the express-validator route
schema: Joi-style shape plus a top-level domain of at least two characters. -/
def evEmailValid (s : String) : Bool :=
  joiEmailValid s &&
    (match (splitOnChar '@' s.data).getLast? with
     | some dom => match (splitOnChar '.' dom).getLast? with
       | some tld => tld.length ≥ 2
       | none => false
     | none => false)

/-- The error kinds Joi can report for the contact schema. -/
inductive JoiErr where
  | stringEmpty
  | stringMin
  | stringMax
  | stringEmail
  | stringPattern
  | anyOnly
deriving DecidableEq, Repr

/-- One entry of Joi's `error.details`: the failing field and the error
kind, as mapped by the controller into its 400 payload. -/
structure FieldError where
  field : String
  err : JoiErr
deriving DecidableEq, Repr

/-- Joi rule `string().trim().min(lo).max(hi).required()` applied to a
present string value: empty after trim reports string.empty, otherwise the
length bounds are checked. -/
def joiRequiredString (lo hi : Nat) (v : String) : List JoiErr :=
  let t := jsTrim v
  if t = "" then [.stringEmpty]
  else if t.length < lo then [.stringMin]
  else if hi < t.length then [.stringMax]
  else []

/-- Joi rule `string().trim().email(...).required()`. -/
def joiEmailField (v : String) : List JoiErr :=
  let t := jsTrim v
  if t = "" then [.stringEmpty]
  else if joiEmailValid t then [] else [.stringEmail]

/-- The character class of the phone patterns used across the repository:
digits, whitespace, minus, plus and parentheses. -/
def phoneOkChar (c : Char) : Bool :=
  c.isDigit || c.isWhitespace || c = '-' || c = '+' || c = '(' || c = ')'

/-- Joi rule for `phone` in contact.validator.js:
`string().trim().pattern(/^[\d\s\-+()]*$/).allow('').optional()`. Note the
schema imposes no length bound on the phone. -/
def joiPhoneField (v : String) : List JoiErr :=
  let t := jsTrim v
  if t = "" then []
  else if t.data.all phoneOkChar then [] else [.stringPattern]

/-- Joi rule for `privacyPolicyAccepted`: after the truthy coercion the
boolean must equal `true`. -/
def joiPrivacyField (b : Bool) : List JoiErr :=
  if b then [] else [.anyOnly]

/-- Tag a field's errors with the field name, as the controller does from
`detail.context.key`. -/
def tagField (f : String) (es : List JoiErr) : List FieldError :=
  es.map (fun e => ⟨f, e⟩)

/-- Embedding of `validateContactForm` (src/server/src/validators/contact.validator.js):
the Joi schema validated with abortEarly false, so every field is evaluated
and all errors are returned, in schema key order. The `website`, `_csrf`
and `marketingConsent` keys accept any value and contribute no errors. -/
def validateContactForm (d : NormalizedData) : List FieldError :=
  tagField "firstName" (joiRequiredString 2 50 d.firstName) ++
  tagField "lastName" (joiRequiredString 2 50 d.lastName) ++
  tagField "email" (joiEmailField d.email) ++
  tagField "phone" (joiPhoneField d.phone) ++
  tagField "subject" (joiRequiredString 2 100 d.subject) ++
  tagField "message" (joiRequiredString 10 2000 d.message) ++
  tagField "privacyPolicyAccepted" (joiPrivacyField d.privacyPolicyAccepted)

/-- The schema key order of the fields that can fail in the Joi contact
schema. -/
def joiSchemaFields : List String :=
  ["firstName", "lastName", "email", "phone", "subject", "message",
   "privacyPolicyAccepted"]

/-! ## The express-validator route schema

`createMessageSchema` in src/server/src/routes/message.routes.js, run by the
`validate` wrapper of security.middleware.js before the controller. Each
chain contributes at most one error, tagged with its field name. A chain
without `optional()` fails on an absent field. -/

/-- Chain `body(f).trim().isLength(lo, hi)` on a required field. -/
def evRequiredLen (lo hi : Nat) : Option String → Bool
  | none => false
  | some s => lo ≤ (jsTrim s).length && (jsTrim s).length ≤ hi

/-- Chain `body(f).trim().isLength(max).optional()`. -/
def evOptionalLenMax (hi : Nat) : Option String → Bool
  | none => true
  | some s => (jsTrim s).length ≤ hi

/-- Chain `body(f).optional().trim().matches(/^[\d\s\-+()]*$/)`. -/
def evOptionalPhonePattern : Option String → Bool
  | none => true
  | some s => (jsTrim s).data.all phoneOkChar

/-- Chain `body('email').isEmail().normalizeEmail()`. -/
def evEmailOk : Option String → Bool
  | none => false
  | some s => evEmailValid s

/-- Chain `body('honeypot').optional().trim().isEmpty()`. -/
def evHoneypotOk : Option String → Bool
  | none => true
  | some s => jsTrim s = ""

/-- Embedding of the route-level `createMessageSchema` run over a request
body: the names of the failing fields, evaluated without short-circuit
(the wrapper awaits every chain before collecting `validationResult`). -/
def runCreateMessageSchema (b : RawBody) : List String :=
  (if evRequiredLen 2 50 b.firstName then [] else ["firstName"]) ++
  (if evOptionalLenMax 50 b.lastName then [] else ["lastName"]) ++
  (if evEmailOk b.email then [] else ["email"]) ++
  (if evOptionalPhonePattern b.phone then [] else ["phone"]) ++
  (if evRequiredLen 2 100 b.subject then [] else ["subject"]) ++
  (if evRequiredLen 10 2000 b.message then [] else ["message"]) ++
  (if evHoneypotOk b.honeypot then [] else ["honeypot"])

/-! ## The intake endpoint -/

/-- Outcome of one `POST /api/messages` request: HTTP status, the `success`
flag of the JSON payload, the two possible error payloads, and whether the
controller reached (attempted) and completed the database save. -/
structure IntakeResult where
  status : Nat
  success : Bool
  routeErrors : List String
  joiErrors : List FieldError
  saveAttempted : Bool
  saved : Bool
deriving DecidableEq, Repr

/-- Embedding of `MessageController.createMessage`
(src/server/src/controllers/message.controller.js lines 78-169): honeypot
short-circuit on a truthy `website`, then normalization, then the Joi
schema, then the save; a save failure is caught and mapped to 500. The
`saveOk` parameter is the outcome of `newMessage.save()`. -/
def createMessage (b : RawBody) (saveOk : Bool) : IntakeResult :=
  if truthy b.website then ⟨200, true, [], [], false, false⟩
  else
    let errs := validateContactForm (normalizeMessageData b)
    if errs.isEmpty then
      if saveOk then ⟨201, true, [], [], true, true⟩
      else ⟨500, false, [], [], true, false⟩
    else ⟨400, false, [], errs, false, false⟩

/-- Embedding of the `POST /` route of src/server/src/routes/message.routes.js
lines 77-81: `validate(createMessageSchema)` runs first and answers 400
with the collected errors when any chain fails; only then does
`messageController.createMessage` run. -/
def intakePost (b : RawBody) (saveOk : Bool) : IntakeResult :=
  let rErrs := runCreateMessageSchema b
  if rErrs.isEmpty then createMessage b saveOk
  else ⟨400, false, rErrs, [], false, false⟩

/-! ## The duplicate-submission guard -/

/-- TTL of a recorded submission hash: 5 minutes in milliseconds
(`HASH_TTL` in duplicateCheck.middleware.js). -/
def HASH_TTL : Nat := 5 * 60 * 1000

/-- The in-memory `submissionHashes` map: recorded hash with the timestamp
at which it was stored. The runtime map has one entry per hash. -/
abbrev DupStore := List (String × Nat)

/-- JS template-literal rendering of a possibly-absent field: an absent
field prints as the string undefined. -/
def jsShow (o : Option String) : String := o.getD "undefined"

/-- Embedding of `createSubmissionHash`: the middleware hashes the string
ip:email:subject:message built from the raw body. The SHA-256 digest is
modelled by its preimage, which is a deterministic function of the same
four fields. -/
def createSubmissionHash (ip : String) (b : RawBody) : String :=
  ip ++ ":" ++ jsShow b.email ++ ":" ++ jsShow b.subject ++ ":" ++ jsShow b.message

/-- The opportunistic cleanup loop run on every check: drop entries whose
age exceeds the TTL. -/
def cleanupStore (s : DupStore) (now : Nat) : DupStore :=
  s.filter (fun e => !(decide (HASH_TTL < now - e.2)))

/-- The `submissionHashes.has(hash)` check. -/
def hasHash (s : DupStore) (h : String) : Bool :=
  s.any (fun e => e.1 == h)

/-- Decision of the guard middleware: reject with 429, admit and record, or
pass the request through untouched (non-POST, exempt path, or caught
error). -/
inductive DupDecision where
  | allow
  | reject
  | pass
deriving DecidableEq, Repr

/-- Core of `duplicateSubmissionCheck`: purge expired entries, reject when
an unexpired entry with the same hash remains, otherwise record the hash
with the current time and admit. -/
def dupStep (s : DupStore) (h : String) (now : Nat) : DupDecision × DupStore :=
  let c := cleanupStore s now
  if hasHash c h then (.reject, c) else (.allow, (h, now) :: c)

/-- Embedding of the exported `duplicateSubmissionCheck` middleware
(src/server/src/middleware/duplicateCheck.middleware.js lines 90-142):
non-POST requests and the health paths pass through; the body of the
try block is `dupStep`; when hashing or a store operation throws, the
middleware logs the error and calls `next()` with the store untouched.
The third component is the logged error, if any. -/
def duplicateSubmissionCheck (method path : String)
    (tryResult : Except String String) (s : DupStore) (now : Nat) :
    DupDecision × DupStore × Option String :=
  if method ≠ "POST" then (.pass, s, none)
  else if path = "/api/health" ∨ path = "/health" then (.pass, s, none)
  else
    match tryResult with
    | .error e => (.pass, s, some e)
    | .ok h =>
      let r := dupStep s h now
      (r.1, r.2, none)

/-- Events acting on the duplicate store: a guarded submission, or the
per-entry expiry timer (`setTimeout(..., HASH_TTL)`) firing. A timer
scheduled by the set of a hash fires no earlier than TTL after that set,
so the firing deletes the entry only when the entry is at least TTL old. -/
inductive GuardEvent where
  | submit (h : String) (t : Nat)
  | expire (h : String) (t : Nat)
deriving DecidableEq, Repr

/-- The time at which an event happens. -/
def GuardEvent.time : GuardEvent → Nat
  | .submit _ t => t
  | .expire _ t => t

/-- Apply one event to the store. -/
def stepEvent (s : DupStore) : GuardEvent → DupStore
  | .submit h t => (dupStep s h t).2
  | .expire h t =>
    if s.any (fun e => e.1 == h && decide (e.2 + HASH_TTL ≤ t)) then
      s.filter (fun e => !(e.1 == h))
    else s

/-- Run a list of events over the store. -/
def runEvents (s : DupStore) (evs : List GuardEvent) : DupStore :=
  evs.foldl stepEvent s

/-- The store keeps at most one entry per hash, as a JS Map does. -/
def KeysUnique (s : DupStore) : Prop := (s.map Prod.fst).Nodup

/-! ## The guarded pipeline

Modelled from the spec: no server variant under src mounts
`duplicateSubmissionCheck`; its method and path filters mark it as
application-level middleware, and the spec's control flow (section 2,
Rate Limiter then Duplicate Guard then Validator) places the guard ahead
of the message route. The composition below wires the guard in front of
the route's validation and controller accordingly. -/
def pipelineWithGuard (s : DupStore) (ip : String) (b : RawBody) (now : Nat)
    (saveOk : Bool) : IntakeResult × DupStore :=
  let h := createSubmissionHash ip b
  match dupStep s h now with
  | (.reject, s2) => (⟨429, false, [], [], false, false⟩, s2)
  | (_, s2) => (intakePost b saveOk, s2)

/-- The validator as a state transformer over the ambient server state
(the duplicate store): `validateContactForm` constructs its Joi schema
locally and reads nothing but its argument, so its embedding returns the
state unchanged. -/
def validationPass (d : NormalizedData) (σ : DupStore) :
    List FieldError × DupStore :=
  (validateContactForm d, σ)

/-! ## Rate limiting

Modelled from the spec (section 4.3) and the fixed-window semantics of the
express-rate-limit and rate-limiter-flexible libraries, which are
dependencies not present under src: a per-client counter with a reset
time one window after the window opened. The retry-after computations
are taken from the handlers in src/unnamed/part_009. -/

/-- Window length in milliseconds and maximum request count, as read from
config.rateLimit. -/
structure RateLimitConfig where
  windowMs : Nat
  maxRequests : Nat
deriving DecidableEq, Repr

/-- Per-client window state: requests counted so far and the time at which
the window resets. -/
structure RateWindow where
  count : Nat
  resetTime : Nat
deriving DecidableEq, Repr

/-- Open a fresh window when none exists or the current one has elapsed. -/
def windowRefresh (cfg : RateLimitConfig) (w : Option RateWindow) (now : Nat) :
    RateWindow :=
  match w with
  | some v => if now < v.resetTime then v else ⟨0, now + cfg.windowMs⟩
  | none => ⟨0, now + cfg.windowMs⟩

/-- Count one request against the window; the boolean is whether the
request is admitted. -/
def rateLimitConsume (cfg : RateLimitConfig) (w : Option RateWindow)
    (now : Nat) : Bool × RateWindow :=
  let w0 := windowRefresh cfg w now
  let w1 : RateWindow := ⟨w0.count + 1, w0.resetTime⟩
  (decide (w1.count ≤ cfg.maxRequests), w1)

/-- JS `Math.ceil(ms / 1000)` on a millisecond count. -/
def ceilSeconds (ms : Nat) : Nat := (ms + 999) / 1000

/-- Response of a limiter handler: HTTP status, success flag and the
retryAfter seconds carried by the 429 payload. -/
structure LimiterResponse where
  status : Nat
  success : Bool
  retryAfterSecs : Option Nat
deriving DecidableEq, Repr

/-- Embedding of `apiLimiter` (src/unnamed/part_009 lines 7-48): admitted
requests pass through; on rejection the handler answers 429 with
retryAfter equal to `Math.ceil((resetTime - Date.now()) / 1000)` seconds. -/
def apiLimiterStep (cfg : RateLimitConfig) (w : Option RateWindow)
    (now : Nat) : LimiterResponse × RateWindow :=
  let r := rateLimitConsume cfg w now
  if r.1 then (⟨200, true, none⟩, r.2)
  else (⟨429, false, some (ceilSeconds (r.2.resetTime - now))⟩, r.2)

/-- Embedding of `specificRateLimiter` (src/unnamed/part_009 lines 151-192)
over the same window model with a duration given in seconds: on rejection
it sets the Retry-After header and the retryAfter payload to
`Math.ceil(msBeforeNext / 1000)`. -/
def specificRateLimiterStep (points durationSecs : Nat)
    (w : Option RateWindow) (now : Nat) : LimiterResponse × RateWindow :=
  let cfg : RateLimitConfig := ⟨durationSecs * 1000, points⟩
  let r := rateLimitConsume cfg w now
  if r.1 then (⟨200, true, none⟩, r.2)
  else (⟨429, false, some (ceilSeconds (r.2.resetTime - now))⟩, r.2)

/-! ## Delivery: persistence service and notification-primary controller -/

/-- Outcome of an external sink call (database save, Telegram send). -/
inductive SinkResult where
  | ok
  | fail (msg : String)
deriving DecidableEq, Repr

/-- What `MessageService.createMessage` did with a request: whether the
caller sees success, which sinks were attempted and completed, and the
logged (swallowed) notification error, if any. -/
structure ServiceOutcome where
  requestSuccess : Bool
  saveAttempted : Bool
  saved : Bool
  notifyAttempted : Bool
  loggedNotifyError : Option String
deriving DecidableEq, Repr

/-- Embedding of `MessageService.createMessage`
(src/server/src/services/message.service.js lines 15-53): missing required
fields throw before the save; a failed save throws, so the notification is
never attempted and the request fails; after a successful save the
Telegram notification is dispatched non-blocking and its failure is only
logged, never failing the request. -/
def serviceCreateMessage (hasRequiredFields : Bool)
    (saveR notifyR : SinkResult) : ServiceOutcome :=
  if hasRequiredFields then
    match saveR with
    | .fail _ => ⟨false, true, false, false, none⟩
    | .ok =>
      match notifyR with
      | .ok => ⟨true, true, true, true, none⟩
      | .fail e => ⟨true, true, true, true, some e⟩
  else ⟨false, false, false, false, none⟩

/-- The required-field scan of `FormController.submitForm`: a field is
missing when absent or blank after trim (`!req.body[field]?.trim()`). -/
def formMissingFields (b : RawBody) : List String :=
  (if truthy (some (jsTrim (b.firstName.getD ""))) then [] else ["firstName"]) ++
  (if truthy (some (jsTrim (b.email.getD ""))) then [] else ["email"]) ++
  (if truthy (some (jsTrim (b.message.getD ""))) then [] else ["message"])

/-- Embedding of `FormController.submitForm`
(src/src/server/controllers/form.controller.js lines 5-60), the
notification-primary variant: honeypot drop, required-field check, then the
Telegram send is the delivery path and its failure is a 500 for the whole
request. The result is the HTTP status and the success flag. -/
def formSubmitForm (b : RawBody) (telegramR : SinkResult) : Nat × Bool :=
  if truthy b.website then (200, true)
  else if (formMissingFields b).isEmpty then
    match telegramR with
    | .ok => (200, true)
    | .fail _ => (500, false)
  else (400, false)

/-- Embedding of `commonRules.phone`
(src/server/src/middleware/validation.middleware.js lines 27-33):
`optional(checkFalsy)` skips an absent or empty value; a present value is
trimmed, then checked for length between 5 and 20 and against
`/^[0-9+\-\s()]+$/`, each failing check contributing its message. -/
def commonRulesPhone : Option String → List String
  | none => []
  | some s =>
    if s = "" then []
    else
      let t := jsTrim s
      (if 5 ≤ t.length ∧ t.length ≤ 20 then []
       else ["Phone number must be between 5 and 20 characters"]) ++
      (if t ≠ "" ∧ t.data.all phoneOkChar then []
       else ["Please provide a valid phone number"])

/-! ## Concrete request bodies used as witnesses and counterexamples -/

/-- A submission that passes every validation layer. -/
def sampleValidBody : RawBody :=
  { firstName := some "Ada", lastName := some "Lovelace",
    email := some "ada@example.com", subject := some "Inquiry",
    message := some "I would like to discuss a potential case.",
    privacyPolicyAccepted := some "true" }

/-- A honeypot submission whose other fields fail the route schema: the
first name is a single character. -/
def honeypotInvalidBody : RawBody :=
  { sampleValidBody with website := some "http://spam.example",
                         firstName := some "A" }

/-- A submission that passes the route schema but fails the Joi schema:
the privacy-policy consent, which only the Joi schema checks, is absent. -/
def noConsentBody : RawBody :=
  { sampleValidBody with privacyPolicyAccepted := none }

/-- A submission failing validation at the route level: one-character
first name. -/
def shortFirstNameBody : RawBody :=
  { sampleValidBody with firstName := some "A" }

/-- A fully valid submission carrying a one-digit phone number. -/
def shortPhoneBody : RawBody :=
  { sampleValidBody with phone := some "1" }

/-- A submission with only a combined single-token name. -/
def singleNameBody : RawBody :=
  { name := some "Madonna" }

/-- A honeypot submission whose other fields all pass the route schema. -/
def honeypotValidBody : RawBody :=
  { sampleValidBody with website := some "http://spam.example" }

/-! ## Helper lemmas -/

/-- `hasHash` holds exactly when some entry carries the hash. -/
lemma hasHash_iff {s : DupStore} {h : String} :
    hasHash s h = true ↔ ∃ e ∈ s, e.1 = h := by
  simp [hasHash, List.any_eq_true, beq_iff_eq]

/-- A hash absent from a store stays absent from any filtered store. -/
lemma hasHash_filter_false {s : DupStore} {h : String}
    (hf : hasHash s h = false) (p : String × Nat → Bool) :
    hasHash (s.filter p) h = false := by
  rw [Bool.eq_false_iff] at hf ⊢
  intro hcon
  rcases hasHash_iff.1 hcon with ⟨e, he, hh⟩
  exact hf (hasHash_iff.2 ⟨e, List.mem_of_mem_filter he, hh⟩)

/-- Filtering preserves key uniqueness. -/
lemma keysUnique_filter {s : DupStore} (p : String × Nat → Bool)
    (hu : KeysUnique s) : KeysUnique (s.filter p) := by
  unfold KeysUnique at *
  exact hu.sublist ((List.filter_sublist s).map Prod.fst)

/-- In a key-unique store, two entries with the same hash coincide. -/
lemma unique_entry {s : DupStore} (hu : KeysUnique s) {h : String}
    {a b : Nat} (ha : (h, a) ∈ s) (hb : (h, b) ∈ s) : a = b := by
  have := List.inj_on_of_nodup_map hu ha hb rfl
  exact congrArg Prod.snd this

/-- The route pipeline written out as one nested conditional. -/
lemma intakePost_spec (b : RawBody) (saveOk : Bool) :
    intakePost b saveOk =
      (if (runCreateMessageSchema b).isEmpty then
        (if truthy b.website then ⟨200, true, [], [], false, false⟩
         else if (validateContactForm (normalizeMessageData b)).isEmpty then
           (if saveOk then ⟨201, true, [], [], true, true⟩
            else ⟨500, false, [], [], true, false⟩)
         else ⟨400, false, [], validateContactForm (normalizeMessageData b),
               false, false⟩)
       else ⟨400, false, runCreateMessageSchema b, [], false, false⟩) := rfl

/-- The route pipeline never answers 429: rate limiting and duplicate
rejection happen in front of it. -/
lemma intakePost_status_ne_429 (b : RawBody) (saveOk : Bool) :
    (intakePost b saveOk).status ≠ 429 := by
  rw [intakePost_spec]
  split_ifs <;> simp

/-- A request answered 400 never reached the save. -/
lemma intakePost_400_not_saved (b : RawBody) (saveOk : Bool)
    (h : (intakePost b saveOk).status = 400) :
    (intakePost b saveOk).saveAttempted = false := by
  rw [intakePost_spec] at h ⊢
  split_ifs at h ⊢ <;> simp_all

/-- An entry strictly inside its TTL window survives the opportunistic
cleanup. -/
lemma mem_cleanup_of_recent {s : DupStore} {h : String} {t1 now : Nat}
    (hm : (h, t1) ∈ s) (ht : now ≤ t1 + HASH_TTL) :
    (h, t1) ∈ cleanupStore s now := by
  refine List.mem_filter.2 ⟨hm, ?_⟩
  simp only [Bool.not_eq_true', decide_eq_false_iff_not]
  omega

/-- An entry strictly inside its TTL window survives any single guard
event, and key uniqueness is preserved. -/
lemma entry_persists {s : DupStore} {h : String} {t1 : Nat}
    (ev : GuardEvent) (hu : KeysUnique s) (hm : (h, t1) ∈ s)
    (hlt : ev.time < t1 + HASH_TTL) :
    (h, t1) ∈ stepEvent s ev ∧ KeysUnique (stepEvent s ev) := by
  cases ev with
  | submit h2 t =>
    simp only [GuardEvent.time] at hlt
    have hkeep : (h, t1) ∈ cleanupStore s t := mem_cleanup_of_recent hm (by omega)
    have hukeep : KeysUnique (cleanupStore s t) := keysUnique_filter _ hu
    simp only [stepEvent, dupStep]
    split
    · exact ⟨hkeep, hukeep⟩
    · rename_i hno
      refine ⟨List.mem_cons_of_mem _ hkeep, ?_⟩
      unfold KeysUnique at *
      simp only [List.map_cons, List.nodup_cons]
      refine ⟨?_, hukeep⟩
      intro hcon
      rcases List.mem_map.1 hcon with ⟨e, he, hh⟩
      exact absurd (hasHash_iff.2 ⟨e, he, hh⟩) (by simp_all)
  | expire h2 t =>
    simp only [GuardEvent.time] at hlt
    simp only [stepEvent]
    split
    · rename_i hany
      have hne : h ≠ h2 := by
        intro heq
        subst heq
        rcases List.any_eq_true.1 hany with ⟨e, he, hcond⟩
        rw [Bool.and_eq_true] at hcond
        obtain ⟨hkey, htime⟩ := hcond
        have hkey2 : e.1 = h := beq_iff_eq.1 hkey
        have : e = (h, e.2) := by
          cases e; simp_all
        rw [this] at he
        have := unique_entry hu he hm
        have htime2 : e.2 + HASH_TTL ≤ t := of_decide_eq_true htime
        omega
      refine ⟨List.mem_filter.2 ⟨hm, by simp [hne]⟩, keysUnique_filter _ hu⟩
    · exact ⟨hm, hu⟩

/-- An entry strictly inside its TTL window survives any trace of guard
events that all happen strictly inside the window. -/
lemma entry_persists_trace {h : String} {t1 : Nat} (evs : List GuardEvent) :
    ∀ s : DupStore, KeysUnique s → (h, t1) ∈ s →
      (∀ ev ∈ evs, ev.time < t1 + HASH_TTL) →
      (h, t1) ∈ runEvents s evs ∧ KeysUnique (runEvents s evs) := by
  induction evs with
  | nil => intro s hu hm _; exact ⟨hm, hu⟩
  | cons ev rest ih =>
    intro s hu hm hevs
    have hstep := entry_persists ev hu hm (hevs ev (List.mem_cons_self ev rest))
    have := ih (stepEvent s ev) hstep.2 hstep.1
      (fun e he => hevs e (List.mem_cons_of_mem ev he))
    simpa [runEvents] using this

/-- The guarded pipeline written out as one match on the guard decision. -/
lemma pipelineWithGuard_eq (s : DupStore) (ip : String) (b : RawBody)
    (now : Nat) (saveOk : Bool) :
    pipelineWithGuard s ip b now saveOk =
      (match dupStep s (createSubmissionHash ip b) now with
       | (DupDecision.reject, s2) => (⟨429, false, [], [], false, false⟩, s2)
       | (_, s2) => (intakePost b saveOk, s2)) := rfl

/-- A field check reporting at most one error contributes a sublist of the
one-element field list. -/
lemma map_field_tag_sublist (f : String) (es : List JoiErr)
    (h : es.length ≤ 1) :
    ((tagField f es).map FieldError.field).Sublist [f] := by
  match es with
  | [] => simp [tagField]
  | [e] =>
    have he : (tagField f [e]).map FieldError.field = [f] := by simp [tagField]
    rw [he]
  | e1 :: e2 :: tl => simp at h

/-- The required-string rule reports at most one error. -/
lemma joiRequiredString_len_le (lo hi : Nat) (v : String) :
    (joiRequiredString lo hi v).length ≤ 1 := by
  simp only [joiRequiredString]
  split_ifs <;> simp

/-- The email rule reports at most one error. -/
lemma joiEmailField_len_le (v : String) :
    (joiEmailField v).length ≤ 1 := by
  simp only [joiEmailField]
  split_ifs <;> simp

/-- The phone rule reports at most one error. -/
lemma joiPhoneField_len_le (v : String) :
    (joiPhoneField v).length ≤ 1 := by
  simp only [joiPhoneField]
  split_ifs <;> simp

/-- The privacy rule reports at most one error. -/
lemma joiPrivacyField_len_le (b : Bool) :
    (joiPrivacyField b).length ≤ 1 := by
  simp only [joiPrivacyField]
  split_ifs <;> simp

/-- The failing fields of any validated record form a sublist of the
schema's key order: every field is evaluated, each contributing at most
one error, in order. -/
lemma validate_fields_sublist (d : NormalizedData) :
    ((validateContactForm d).map FieldError.field).Sublist joiSchemaFields := by
  unfold validateContactForm joiSchemaFields
  simp only [List.map_append]
  have h7 : (["firstName", "lastName", "email", "phone", "subject",
      "message", "privacyPolicyAccepted"] : List String)
      = ["firstName"] ++ ["lastName"] ++ ["email"] ++ ["phone"] ++
        ["subject"] ++ ["message"] ++ ["privacyPolicyAccepted"] := rfl
  rw [h7]
  exact ((((((map_field_tag_sublist _ _ (joiRequiredString_len_le 2 50 _)).append
    (map_field_tag_sublist _ _ (joiRequiredString_len_le 2 50 _))).append
    (map_field_tag_sublist _ _ (joiEmailField_len_le _))).append
    (map_field_tag_sublist _ _ (joiPhoneField_len_le _))).append
    (map_field_tag_sublist _ _ (joiRequiredString_len_le 2 100 _))).append
    (map_field_tag_sublist _ _ (joiRequiredString_len_le 10 2000 _))).append
    (map_field_tag_sublist _ _ (joiPrivacyField_len_le _))

/-- The failing fields of any validated record are pairwise distinct:
one error per failing field. -/
lemma validate_fields_nodup (d : NormalizedData) :
    ((validateContactForm d).map FieldError.field).Nodup :=
  (validate_fields_sublist d).nodup (by decide)

/-! ## Claim C1: honeypot handling -/

/-- C1 counterexample: a submission whose honeypot field `website` is
non-empty but whose first name fails the route-level schema is answered
400 with success false by the `POST /` pipeline, not 200 with success
true — `validate(createMessageSchema)` runs before the controller's
honeypot check. -/
theorem c1_honeypot_counterexample :
    truthy honeypotInvalidBody.website = true ∧
    (intakePost honeypotInvalidBody true).status = 400 ∧
    (intakePost honeypotInvalidBody true).success = false := by
  decide

/-- C1 amended: a submission whose honeypot field `website` is non-empty
is never delivered; when its other fields pass the route-level schema it
is acknowledged with 200 and success true (silent drop), and when they
fail that schema it is answered 400 like any invalid submission. -/
theorem c1_honeypot_silent_drop (b : RawBody) (saveOk : Bool)
    (hp : truthy b.website = true) :
    (intakePost b saveOk).saveAttempted = false ∧
    intakePost b saveOk =
      (if (runCreateMessageSchema b).isEmpty then
        ⟨200, true, [], [], false, false⟩
       else ⟨400, false, runCreateMessageSchema b, [], false, false⟩) := by
  rw [intakePost_spec]
  split_ifs with h1 <;> simp [hp]

/-- C1 witness: the amended statement applied to a honeypot submission
whose remaining fields are valid. -/
theorem c1_honeypot_silent_drop_witness :
    (intakePost honeypotValidBody true).saveAttempted = false ∧
    intakePost honeypotValidBody true =
      (if (runCreateMessageSchema honeypotValidBody).isEmpty then
        ⟨200, true, [], [], false, false⟩
       else ⟨400, false, runCreateMessageSchema honeypotValidBody, [],
             false, false⟩) :=
  c1_honeypot_silent_drop honeypotValidBody true (by decide)

/-! ## Claim C4: notification after persistence -/

/-- C4 counterexample: in the notification-primary variant
(`FormController.submitForm`), a valid submission whose Telegram send
fails is answered 500 — a notification-sink failure does fail the overall
request there. -/
theorem c4_notification_counterexample :
    truthy sampleValidBody.website = false ∧
    formMissingFields sampleValidBody = [] ∧
    formSubmitForm sampleValidBody (SinkResult.fail "telegram unavailable") =
      (500, false) := by
  decide

/-- C4 amended: in the persistence-backed service
(`MessageService.createMessage`), the notification is attempted only after
a successful save, and a notification failure never fails the request: the
caller still sees success and the error is only logged. In the
notification-primary variant (`FormController.submitForm`), where no
persistence exists, a notification failure is a 500 for the request. -/
theorem c4_notification_after_persistence :
    ∀ (nR sR : SinkResult) (m e : String) (hr : Bool),
      (serviceCreateMessage true SinkResult.ok nR).requestSuccess = true ∧
      (serviceCreateMessage true SinkResult.ok nR).saved = true ∧
      (serviceCreateMessage true SinkResult.ok nR).notifyAttempted = true ∧
      (serviceCreateMessage hr (SinkResult.fail m) nR).notifyAttempted = false ∧
      (serviceCreateMessage false sR nR).notifyAttempted = false ∧
      (serviceCreateMessage true SinkResult.ok (SinkResult.fail e)).requestSuccess
        = true ∧
      (serviceCreateMessage true SinkResult.ok (SinkResult.fail e)).loggedNotifyError
        = some e ∧
      formSubmitForm sampleValidBody (SinkResult.fail e) = (500, false) := by
  intro nR sR m e hr
  refine ⟨?_, ?_, ?_, ?_, ?_, rfl, rfl, rfl⟩ <;>
    cases nR <;> cases sR <;> cases hr <;> rfl

/-! ## Claim C6: the duplicate guard fails open -/

/-- C6: when the guard's try block (hashing or the store) throws, the
middleware logs the error and passes the submission through with the
store untouched, instead of rejecting it or failing the request. -/
theorem c6_guard_fails_open (path e : String) (s : DupStore) (now : Nat)
    (h1 : path ≠ "/api/health") (h2 : path ≠ "/health") :
    duplicateSubmissionCheck "POST" path (Except.error e) s now =
      (DupDecision.pass, s, some e) := by
  simp [duplicateSubmissionCheck, h1, h2]

/-- C6 witness: a throwing guard on the message route passes the request
through and logs the error. -/
theorem c6_guard_fails_open_witness :
    duplicateSubmissionCheck "POST" "/api/messages"
      (Except.error "hash failure") [] 0 =
      (DupDecision.pass, [], some "hash failure") :=
  c6_guard_fails_open "/api/messages" "hash failure" [] 0
    (by decide) (by decide)

/-! ## Claim C7: phone validation -/

/-- C7 counterexample: the Joi schema wired into the controller accepts
the one-character phone number 1, and the whole pipeline answers 201 —
so phone acceptance is not equivalent to the pattern plus a length
between 5 and 20. -/
theorem c7_phone_counterexample :
    shortPhoneBody.phone = some "1" ∧
    (jsTrim "1").length < 5 ∧
    validateContactForm (normalizeMessageData shortPhoneBody) = [] ∧
    (intakePost shortPhoneBody true).status = 201 := by
  decide

/-- C7 amended: the wired Joi schema accepts a present phone exactly when
every character is a digit, whitespace, plus, minus or a parenthesis, with
no length bound; only `commonRules.phone` of validation.middleware.js
additionally requires length between 5 and 20. Both accept
+1 (212) 555-0100 and reject abc, and an absent phone is accepted. -/
theorem c7_phone_rules :
    ∀ s : String,
      (joiPhoneField s = [] ↔
        (jsTrim s = "" ∨ (jsTrim s).data.all phoneOkChar = true)) ∧
      (commonRulesPhone (some s) = [] ↔
        (s = "" ∨ (5 ≤ (jsTrim s).length ∧ (jsTrim s).length ≤ 20 ∧
                   jsTrim s ≠ "" ∧ (jsTrim s).data.all phoneOkChar = true))) ∧
      commonRulesPhone none = [] ∧
      joiPhoneField "" = [] ∧
      joiPhoneField "+1 (212) 555-0100" = [] ∧
      commonRulesPhone (some "+1 (212) 555-0100") = [] ∧
      joiPhoneField "abc" = [JoiErr.stringPattern] ∧
      commonRulesPhone (some "abc") ≠ [] := by
  intro s
  refine ⟨?_, ?_, by decide, by decide, by decide, by decide, by decide,
          by decide⟩
  · unfold joiPhoneField
    by_cases h1 : jsTrim s = ""
    · simp [h1]
    · by_cases h2 : (jsTrim s).data.all phoneOkChar <;> simp [h1, h2]
  · unfold commonRulesPhone
    by_cases h0 : s = "" <;> simp only [h0] <;> simp [h0]
    by_cases h1 : 5 ≤ (jsTrim s).length ∧ (jsTrim s).length ≤ 20 <;>
      by_cases h2 : jsTrim s ≠ "" ∧ (jsTrim s).data.all phoneOkChar = true <;>
      simp [h1, h2] <;> tauto

/-! ## Claim C8: validation is pure -/

/-- C8: the validator is a deterministic function of its input and
mutates no server state: as a state transformer it returns the ambient
state unchanged, running it a second time on its own output state yields
the identical error list, and the duplicate store left by the guarded
pipeline does not depend on the validation outcome. -/
theorem c8_validation_pure :
    ∀ (d : NormalizedData) (σ s : DupStore) (ip : String) (b : RawBody)
      (t : Nat) (saveOk : Bool),
      (validationPass d σ).2 = σ ∧
      (validationPass d ((validationPass d σ).2)).1 = (validationPass d σ).1 ∧
      (pipelineWithGuard s ip b t saveOk).2 =
        (dupStep s (createSubmissionHash ip b) t).2 := by
  intro d σ s ip b t saveOk
  refine ⟨rfl, rfl, ?_⟩
  rcases h : dupStep s (createSubmissionHash ip b) t with ⟨dec, s2⟩
  have hpw : pipelineWithGuard s ip b t saveOk =
      (match dupStep s (createSubmissionHash ip b) t with
       | (DupDecision.reject, s2) => (⟨429, false, [], [], false, false⟩, s2)
       | (_, s2) => (intakePost b saveOk, s2)) := rfl
  rw [hpw, h]
  cases dec <;> rfl

/-! ## Claim C10: single-token combined name -/

/-- C10: a submission carrying only a single-token `name` (no firstName
or lastName) is normalized to firstName equal to that token and lastName
empty, and the Joi schema then rejects it with a lastName error, the
field being required with minimum length 2. -/
theorem c10_single_name_token (b : RawBody) (n tok : String)
    (hname : b.name = some n) (hfn : b.firstName = none)
    (hln : b.lastName = none) (hne : n ≠ "")
    (htok : splitWs (jsTrim n) = [tok])
    (hclean : sanitizeHtml (jsTrim tok) = tok) :
    (normalizeMessageData b).firstName = tok ∧
    (normalizeMessageData b).lastName = "" ∧
    FieldError.mk "lastName" JoiErr.stringEmpty ∈
      validateContactForm (normalizeMessageData b) ∧
    validateContactForm (normalizeMessageData b) ≠ [] := by
  have hlast : (normalizeMessageData b).lastName = "" := by
    unfold normalizeMessageData
    simp [hname, hfn, hln, truthy, hne, htok]
    decide
  have hfirst : (normalizeMessageData b).firstName = tok := by
    unfold normalizeMessageData
    simp [hname, hfn, hln, truthy, hne, htok, hclean]
  have hmem : FieldError.mk "lastName" JoiErr.stringEmpty ∈
      validateContactForm (normalizeMessageData b) := by
    unfold validateContactForm
    rw [hlast]
    have hblock : joiRequiredString 2 50 "" = [JoiErr.stringEmpty] := by decide
    simp [hblock, tagField, List.mem_append]
  exact ⟨hfirst, hlast, hmem, List.ne_nil_of_mem hmem⟩

/-! ## Claim C3: full enumeration of validation errors -/

/-- C3: a submission that reaches the Joi schema and fails it is answered
400 with the full error list and never saved; the reported fields are
always a distinct, ordered selection of the schema's fields (no
short-circuit, one error per failing field, each tagged with its name);
the all-empty submission yields one error for each of the six required
fields; and any submission that reaches the save passed both validation
layers and the honeypot check. -/
theorem c3_validation_enumerated (b : RawBody) (saveOk : Bool)
    (hweb : truthy b.website = false)
    (hroute : runCreateMessageSchema b = [])
    (hjoi : validateContactForm (normalizeMessageData b) ≠ []) :
    intakePost b saveOk =
      ⟨400, false, [], validateContactForm (normalizeMessageData b),
       false, false⟩ ∧
    (∀ d : NormalizedData,
      ((validateContactForm d).map FieldError.field).Sublist joiSchemaFields ∧
      ((validateContactForm d).map FieldError.field).Nodup) ∧
    ((validateContactForm (normalizeMessageData {})).map FieldError.field =
      ["firstName", "lastName", "email", "subject", "message",
       "privacyPolicyAccepted"]) ∧
    (∀ (b2 : RawBody) (s2 : Bool), (intakePost b2 s2).saveAttempted = true →
      runCreateMessageSchema b2 = [] ∧
      validateContactForm (normalizeMessageData b2) = [] ∧
      truthy b2.website = false) := by
  refine ⟨?_, fun d => ⟨validate_fields_sublist d, validate_fields_nodup d⟩,
          by decide, ?_⟩
  · rw [intakePost_spec]
    simp [hroute, hweb, hjoi]
  · intro b2 s2 hsave
    rw [intakePost_spec] at hsave
    split_ifs at hsave with h1 h2 h3 h4 <;>
      simp_all [List.isEmpty_iff]

/-- C3 witness: a submission that passes the route schema but lacks the
privacy-policy consent required by the Joi schema. -/
theorem c3_validation_enumerated_witness :
    intakePost noConsentBody true =
      ⟨400, false, [],
       validateContactForm (normalizeMessageData noConsentBody),
       false, false⟩ ∧
    (∀ d : NormalizedData,
      ((validateContactForm d).map FieldError.field).Sublist joiSchemaFields ∧
      ((validateContactForm d).map FieldError.field).Nodup) ∧
    ((validateContactForm (normalizeMessageData {})).map FieldError.field =
      ["firstName", "lastName", "email", "subject", "message",
       "privacyPolicyAccepted"]) ∧
    (∀ (b2 : RawBody) (s2 : Bool), (intakePost b2 s2).saveAttempted = true →
      runCreateMessageSchema b2 = [] ∧
      validateContactForm (normalizeMessageData b2) = [] ∧
      truthy b2.website = false) :=
  c3_validation_enumerated noConsentBody true (by decide) (by decide)
    (by decide)

/-! ## Claim C2: the duplicate window -/

/-- C2: when an identical submission (same client address, email, subject
and body, hence the same `createSubmissionHash`) is admitted by the guard
at `t1`, a resubmission within the TTL is answered 429 and not delivered,
a resubmission after the TTL has elapsed is admitted again, and no
interleaving of other guard events strictly inside the window (other
submissions, expiry timers) lets a same-key submission inside the window
through: entries are removed only once older than the TTL. -/
theorem c2_duplicate_window (s0 : DupStore) (ip : String) (b : RawBody)
    (saveOk : Bool) (t1 t2 t3 t4 : Nat) (evs : List GuardEvent)
    (hu : KeysUnique s0)
    (hfresh : hasHash (cleanupStore s0 t1) (createSubmissionHash ip b) = false)
    (h12 : t1 ≤ t2) (hw2 : t2 ≤ t1 + HASH_TTL)
    (ha3 : t1 + HASH_TTL < t3)
    (h14 : t1 ≤ t4) (hw4 : t4 < t1 + HASH_TTL)
    (hevs : ∀ ev ∈ evs, ev.time < t1 + HASH_TTL) :
    (pipelineWithGuard s0 ip b t1 saveOk).1.status ≠ 429 ∧
    (pipelineWithGuard (pipelineWithGuard s0 ip b t1 saveOk).2 ip b t2
      saveOk).1 = ⟨429, false, [], [], false, false⟩ ∧
    (dupStep (pipelineWithGuard s0 ip b t1 saveOk).2
      (createSubmissionHash ip b) t3).1 = DupDecision.allow ∧
    (dupStep (runEvents (pipelineWithGuard s0 ip b t1 saveOk).2 evs)
      (createSubmissionHash ip b) t4).1 = DupDecision.reject := by
  set h := createSubmissionHash ip b with hdefh
  set c0 := cleanupStore s0 t1 with hdefc
  have hstep1 : dupStep s0 h t1 = (DupDecision.allow, (h, t1) :: c0) := by
    unfold dupStep
    simp [hfresh, hdefc]
  have hres1 : pipelineWithGuard s0 ip b t1 saveOk =
      (intakePost b saveOk, (h, t1) :: c0) := by
    rw [pipelineWithGuard_eq, hstep1]
  rw [hres1]
  have hmem1 : (h, t1) ∈ (h, t1) :: c0 := List.mem_cons_self _ _
  refine ⟨by simpa using intakePost_status_ne_429 b saveOk, ?_, ?_, ?_⟩
  · have hkeep2 : (h, t1) ∈ cleanupStore ((h, t1) :: c0) t2 :=
      mem_cleanup_of_recent hmem1 hw2
    have hstep2 : dupStep ((h, t1) :: c0) h t2 =
        (DupDecision.reject, cleanupStore ((h, t1) :: c0) t2) := by
      unfold dupStep
      simp [hasHash_iff.2 ⟨(h, t1), hkeep2, rfl⟩]
    rw [pipelineWithGuard_eq, hstep2]
  · have hdrop : cleanupStore ((h, t1) :: c0) t3 = cleanupStore c0 t3 := by
      unfold cleanupStore
      simp [List.filter_cons, show HASH_TTL < t3 - t1 by omega]
    have hfresh3 : hasHash (cleanupStore c0 t3) h = false := by
      unfold cleanupStore
      exact hasHash_filter_false hfresh _
    unfold dupStep
    simp [hdrop, hfresh3]
  · have hus1 : KeysUnique ((h, t1) :: c0) := by
      unfold KeysUnique
      simp only [List.map_cons, List.nodup_cons]
      refine ⟨?_, keysUnique_filter _ hu⟩
      intro hcon
      rcases List.mem_map.1 hcon with ⟨e, he, hh⟩
      exact absurd (hasHash_iff.2 ⟨e, he, hh⟩) (by simp [hfresh, hdefc])
    have htr := entry_persists_trace evs ((h, t1) :: c0) hus1 hmem1 hevs
    have hkeep4 : (h, t1) ∈ cleanupStore (runEvents ((h, t1) :: c0) evs) t4 :=
      mem_cleanup_of_recent htr.1 (by omega)
    unfold dupStep
    simp [hasHash_iff.2 ⟨(h, t1), hkeep4, rfl⟩]

/-- C2 witness: a fresh store, an identical resubmission at exactly the
TTL boundary rejected, one just past the TTL admitted, and a rejection
across an interleaved trace of unrelated events. -/
theorem c2_duplicate_window_witness :
    (pipelineWithGuard [] "203.0.113.7" sampleValidBody 0 true).1.status ≠ 429 ∧
    (pipelineWithGuard (pipelineWithGuard [] "203.0.113.7" sampleValidBody 0
      true).2 "203.0.113.7" sampleValidBody 300000 true).1 =
      ⟨429, false, [], [], false, false⟩ ∧
    (dupStep (pipelineWithGuard [] "203.0.113.7" sampleValidBody 0 true).2
      (createSubmissionHash "203.0.113.7" sampleValidBody) 300001).1 =
      DupDecision.allow ∧
    (dupStep (runEvents (pipelineWithGuard [] "203.0.113.7" sampleValidBody 0
        true).2 [GuardEvent.submit "other" 5, GuardEvent.expire "other" 7])
      (createSubmissionHash "203.0.113.7" sampleValidBody) 299999).1 =
      DupDecision.reject :=
  c2_duplicate_window [] "203.0.113.7" sampleValidBody true 0 300000 300001
    299999 [GuardEvent.submit "other" 5, GuardEvent.expire "other" 7]
    (by simp [KeysUnique]) (by decide) (by decide) (by decide) (by decide)
    (by decide) (by decide) (by decide)

/-! ## Claim C9: the guard records before validation and keeps on failure -/

/-- C9: the guard hashes and records a fresh submission before the route's
validation runs; when the request then fails validation with 400 nothing
removes the recorded hash, so an identical resubmission within the TTL is
answered 429 even though nothing was delivered. -/
theorem c9_hash_recorded_before_validation (s0 : DupStore) (ip : String)
    (b : RawBody) (saveOk : Bool) (t1 t2 : Nat)
    (hfresh : hasHash (cleanupStore s0 t1) (createSubmissionHash ip b) = false)
    (hfail : (intakePost b saveOk).status = 400)
    (h12 : t1 ≤ t2) (hw : t2 ≤ t1 + HASH_TTL) :
    (pipelineWithGuard s0 ip b t1 saveOk).1.status = 400 ∧
    (pipelineWithGuard s0 ip b t1 saveOk).1.saveAttempted = false ∧
    hasHash (pipelineWithGuard s0 ip b t1 saveOk).2
      (createSubmissionHash ip b) = true ∧
    (pipelineWithGuard (pipelineWithGuard s0 ip b t1 saveOk).2 ip b t2
      saveOk).1 = ⟨429, false, [], [], false, false⟩ := by
  set h := createSubmissionHash ip b with hdefh
  set c0 := cleanupStore s0 t1 with hdefc
  have hstep1 : dupStep s0 h t1 = (DupDecision.allow, (h, t1) :: c0) := by
    unfold dupStep
    simp [hfresh, hdefc]
  have hres1 : pipelineWithGuard s0 ip b t1 saveOk =
      (intakePost b saveOk, (h, t1) :: c0) := by
    rw [pipelineWithGuard_eq, hstep1]
  rw [hres1]
  have hmem1 : (h, t1) ∈ (h, t1) :: c0 := List.mem_cons_self _ _
  refine ⟨hfail, intakePost_400_not_saved b saveOk hfail,
          by simp [hasHash], ?_⟩
  have hkeep2 : (h, t1) ∈ cleanupStore ((h, t1) :: c0) t2 :=
    mem_cleanup_of_recent hmem1 hw
  have hstep2 : dupStep ((h, t1) :: c0) h t2 =
      (DupDecision.reject, cleanupStore ((h, t1) :: c0) t2) := by
    unfold dupStep
    simp [hasHash_iff.2 ⟨(h, t1), hkeep2, rfl⟩]
  rw [pipelineWithGuard_eq, hstep2]

/-- C9 witness: a submission with a one-character first name fails the
route schema with 400, yet its immediate resubmission is answered 429. -/
theorem c9_hash_recorded_before_validation_witness :
    (pipelineWithGuard [] "198.51.100.4" shortFirstNameBody 0 true).1.status
      = 400 ∧
    (pipelineWithGuard [] "198.51.100.4" shortFirstNameBody 0
      true).1.saveAttempted = false ∧
    hasHash (pipelineWithGuard [] "198.51.100.4" shortFirstNameBody 0 true).2
      (createSubmissionHash "198.51.100.4" shortFirstNameBody) = true ∧
    (pipelineWithGuard (pipelineWithGuard [] "198.51.100.4" shortFirstNameBody
      0 true).2 "198.51.100.4" shortFirstNameBody 1000 true).1 =
      ⟨429, false, [], [], false, false⟩ :=
  c9_hash_recorded_before_validation [] "198.51.100.4" shortFirstNameBody
    true 0 1000 (by decide) (by decide) (by decide) (by decide)

/-! ## Claim C5: rate limiting -/

/-- C5: a client over the limit inside the window is answered 429 with a
retryAfter of exactly the ceiling of the window's remaining milliseconds
in seconds; that value never exceeds the window size (in seconds for the
api limiter, in duration seconds for the flexible limiter); and once the
window's reset time has passed, the next request from the same client is
admitted. -/
theorem c5_rate_limit_retry_after (cfg : RateLimitConfig) (v : RateWindow)
    (now d : Nat)
    (hval : v.resetTime ≤ now + cfg.windowMs)
    (hvald : v.resetTime ≤ now + d * 1000)
    (hmax : 1 ≤ cfg.maxRequests)
    (hin : now < v.resetTime)
    (hfull : cfg.maxRequests ≤ v.count) :
    (apiLimiterStep cfg (some v) now).1 =
      ⟨429, false, some (ceilSeconds (v.resetTime - now))⟩ ∧
    ceilSeconds (v.resetTime - now) ≤ ceilSeconds cfg.windowMs ∧
    (specificRateLimiterStep cfg.maxRequests d (some v) now).1 =
      ⟨429, false, some (ceilSeconds (v.resetTime - now))⟩ ∧
    ceilSeconds (v.resetTime - now) ≤ d ∧
    (∀ k : Nat, (apiLimiterStep cfg (some v) (v.resetTime + k)).1 =
      ⟨200, true, none⟩) := by
  have hcount : ¬ (v.count + 1 ≤ cfg.maxRequests) := by omega
  have hcon : ∀ m : Nat, rateLimitConsume ⟨m, cfg.maxRequests⟩ (some v) now =
      (false, ⟨v.count + 1, v.resetTime⟩) := by
    intro m
    unfold rateLimitConsume windowRefresh
    simp [hin, hcount]
  have hcon0 : rateLimitConsume cfg (some v) now =
      (false, ⟨v.count + 1, v.resetTime⟩) := by
    unfold rateLimitConsume windowRefresh
    simp [hin, hcount]
  refine ⟨?_, ?_, ?_, ?_, ?_⟩
  · simp [apiLimiterStep, hcon0]
  · exact Nat.div_le_div_right (by omega)
  · simp [specificRateLimiterStep, hcon]
  · have : ceilSeconds (v.resetTime - now) ≤ ceilSeconds (d * 1000) :=
      Nat.div_le_div_right (by omega)
    have hd : ceilSeconds (d * 1000) = d := by
      unfold ceilSeconds
      omega
    omega
  · intro k
    have hnot : ¬ (v.resetTime + k < v.resetTime) := by omega
    unfold apiLimiterStep rateLimitConsume windowRefresh
    simp [hnot, hmax]

/-- C5 witness: the default configuration of 100 requests per 15 minutes,
a full window with 5 minutes remaining, and the flexible limiter with a
900 second duration. -/
theorem c5_rate_limit_retry_after_witness :
    (apiLimiterStep ⟨900000, 100⟩ (some ⟨100, 900000⟩) 600000).1 =
      ⟨429, false, some (ceilSeconds (900000 - 600000))⟩ ∧
    ceilSeconds (900000 - 600000) ≤ ceilSeconds 900000 ∧
    (specificRateLimiterStep 100 900 (some ⟨100, 900000⟩) 600000).1 =
      ⟨429, false, some (ceilSeconds (900000 - 600000))⟩ ∧
    ceilSeconds (900000 - 600000) ≤ 900 ∧
    (∀ k : Nat, (apiLimiterStep ⟨900000, 100⟩ (some ⟨100, 900000⟩)
      (900000 + k)).1 = ⟨200, true, none⟩) :=
  c5_rate_limit_retry_after ⟨900000, 100⟩ ⟨100, 900000⟩ 600000 900
    (by decide) (by decide) (by decide) (by decide) (by decide)

/-- C10 witness: the single-token name Madonna. -/
theorem c10_single_name_token_witness :
    (normalizeMessageData singleNameBody).firstName = "Madonna" ∧
    (normalizeMessageData singleNameBody).lastName = "" ∧
    FieldError.mk "lastName" JoiErr.stringEmpty ∈
      validateContactForm (normalizeMessageData singleNameBody) ∧
    validateContactForm (normalizeMessageData singleNameBody) ≠ [] :=
  c10_single_name_token singleNameBody "Madonna" "Madonna" (by decide)
    (by decide) (by decide) (by decide) (by decide) (by decide)

end Dynamis
